import Mathlib

/-!
# Verification of the imgkit image-processing core

A shallow embedding, in Lean 4, of the decode / metadata / resize / crop /
encode algorithms of the `imgkit` Rust crate (`src/rust/src/`), together
with theorems settling the specification claims about them.

Modelling conventions:
* Rust `u32` / `usize` values are modelled as `ℕ`.  All the embedded code
  paths keep intermediate values far below `2^32` (the decoders enforce a
  `100_000_000` pixel ceiling before any size arithmetic), so no wrap-around
  is modelled except where a Rust `as` cast truncates (modelled with `% 256`
  or `Int.toNat ∘ Int.floor` as appropriate).
* Rust `f64` arithmetic on nonnegative quantities is modelled with exact
  rational arithmetic (`ℚ`).  `f64::round` rounds half away from zero, which
  on nonnegative values coincides with Mathlib's `round` (half up).
  A division whose divisor is zero yields IEEE `+∞` in Rust; where the source
  can divide by zero the embedding uses `Option ℚ` with `none` standing for
  that `+∞` (all numerators on those paths are positive).
* `u32::saturating_sub` is Nat subtraction, which is already truncated.
* Fallible Rust functions returning `Result<_, ImageError>` are embedded as
  `Except ImageError _`.
-/

namespace ImgKit

/-- Error taxonomy of `src/rust/src/error.rs` (`enum ImageError`).  The
`IoError` variant carries an `std::io::Error` in Rust; none of the embedded
code paths can produce it, it is kept with a message payload. -/
inductive ImageError where
  | decodeError (msg : String)
  | encodeError (msg : String)
  | invalidDimensions (msg : String)
  | unsupportedFormat (msg : String)
  | processingError (msg : String)
  | ioError (msg : String)
deriving DecidableEq, Repr

/-- Equality of embedded `Result` values is decidable (used to evaluate the
embedding at concrete inputs). -/
instance {ε α : Type} [DecidableEq ε] [DecidableEq α] : DecidableEq (Except ε α) :=
  fun a b =>
    match a, b with
    | .error x, .error y =>
      if h : x = y then .isTrue (congrArg Except.error h)
      else .isFalse (fun hc => h (by injection hc))
    | .error _, .ok _ => .isFalse (fun hc => Except.noConfusion hc)
    | .ok _, .error _ => .isFalse (fun hc => Except.noConfusion hc)
    | .ok x, .ok y =>
      if h : x = y then .isTrue (congrArg Except.ok h)
      else .isFalse (fun hc => h (by injection hc))

/-- Crop gravity anchor points, from `src/rust/src/types.rs` (`enum CropGravity`). -/
inductive CropGravity where
  | center | north | south | east | west
  | northWest | northEast | southWest | southEast
deriving DecidableEq, Repr

/-- Fit modes for resize, from `src/rust/src/types.rs` (`enum FitMode`). -/
inductive FitMode where
  | cover | contain | fill | inside | outside
deriving DecidableEq, Repr

/-- `calculate_gravity_crop` from `src/rust/src/crop.rs` (lines 12-55).
`u32::saturating_sub` is modelled by `ℕ` subtraction (also truncated at 0);
`/ 2` is the Rust integer division. -/
def calculate_gravity_crop (srcW srcH cropW cropH : ℕ) (g : CropGravity) : ℕ × ℕ :=
  match g with
  | .center => ((srcW - cropW) / 2, (srcH - cropH) / 2)
  | .north => ((srcW - cropW) / 2, 0)
  | .south => ((srcW - cropW) / 2, srcH - cropH)
  | .east => (srcW - cropW, (srcH - cropH) / 2)
  | .west => (0, (srcH - cropH) / 2)
  | .northWest => (0, 0)
  | .northEast => (srcW - cropW, 0)
  | .southWest => (0, srcH - cropH)
  | .southEast => (srcW - cropW, srcH - cropH)

/-- The gravity-to-offset mapping exactly as the specification documents it
(spec §4.6: "Center→((sw-cw)/2,(sh-ch)/2); North→((sw-cw)/2, 0); South→((sw-cw)/2,
sh-ch); East→(sw-cw, (sh-ch)/2); West→(0,(sh-ch)/2); NorthWest→(0,0);
NorthEast→(sw-cw,0); SouthWest→(0,sh-ch); SouthEast→(sw-cw,sh-ch)", with
saturating subtraction).  Stated separately from the source embedding so that
agreement between the two is a theorem, not a definition. -/
def gravity_offset_documented (sw sh cw ch : ℕ) (g : CropGravity) : ℕ × ℕ :=
  match g with
  | .center => ((sw - cw) / 2, (sh - ch) / 2)
  | .north => ((sw - cw) / 2, 0)
  | .south => ((sw - cw) / 2, sh - ch)
  | .east => (sw - cw, (sh - ch) / 2)
  | .west => (0, (sh - ch) / 2)
  | .northWest => (0, 0)
  | .northEast => (sw - cw, 0)
  | .southWest => (0, sh - ch)
  | .southEast => (sw - cw, sh - ch)

/-- `calculate_aspect_ratio_crop` from `src/rust/src/crop.rs` (lines 73-92).
The `f64` ratio arithmetic is modelled with exact rationals; `f64::round`
(half away from zero, here on nonnegative values) is Mathlib's `round`, and
the `as u32` cast of the rounded value is `Int.toNat`. -/
def calculate_aspect_ratio_crop (srcW srcH aspectW aspectH : ℕ) : ℕ × ℕ :=
  let srcQ : ℚ := (srcW : ℚ) / (srcH : ℚ)
  let tgtQ : ℚ := (aspectW : ℚ) / (aspectH : ℚ)
  if tgtQ < srcQ then
    -- image is wider than target ratio: crop width
    let newWidth : ℕ := (round ((srcH : ℚ) * tgtQ)).toNat
    (max (min newWidth srcW) 1, srcH)
  else
    -- image is taller than target ratio: crop height
    let newHeight : ℕ := (round ((srcW : ℚ) / tgtQ)).toNat
    (srcW, max (min newHeight srcH) 1)

/-- Resize filters, from `src/rust/src/types.rs` (`enum ResizeFilter`). -/
inductive ResizeFilter where
  | nearest | bilinear | catmullRom | mitchell | lanczos3
deriving DecidableEq, Repr

/-- Resize options, from `src/rust/src/types.rs` (`struct ResizeOptions`). -/
structure ResizeOptions where
  width : Option ℕ
  height : Option ℕ
  filter : Option ResizeFilter
  fit : Option FitMode
  background : Option (List ℕ)
deriving DecidableEq, Repr

/-- `calculate_dimensions` from `src/rust/src/resize.rs` (lines 42-111).
The `f64` ratio arithmetic is modelled with exact rationals; `f64::round` on
nonnegative values is Mathlib's `round`; `as u32` on the rounded value is
`Int.toNat`.  In the source the `Cover` and `Contain` arms carry two
syntactically identical `if/else` bodies; they are collapsed into one here. -/
def calculate_dimensions (srcW srcH : ℕ) (tw th : Option ℕ) (fit : Option FitMode) :
    Except ImageError (ℕ × ℕ) :=
  let fitMode := fit.getD FitMode.cover
  match tw, th with
  | some w, some h =>
    match fitMode with
    | .fill => .ok (w, h)
    | .cover | .contain =>
      let srcQ : ℚ := (srcW : ℚ) / (srcH : ℚ)
      let tgtQ : ℚ := (w : ℚ) / (h : ℚ)
      let wh :=
        if tgtQ < srcQ then (w, (round ((w : ℚ) / srcQ)).toNat)
        else ((round ((h : ℚ) * srcQ)).toNat, h)
      .ok (max wh.1 1, max wh.2 1)
    | .inside =>
      if srcW ≤ w ∧ srcH ≤ h then .ok (srcW, srcH)
      else
        let r : ℚ := min ((w : ℚ) / (srcW : ℚ)) ((h : ℚ) / (srcH : ℚ))
        .ok ((round ((srcW : ℚ) * r)).toNat, (round ((srcH : ℚ) * r)).toNat)
    | .outside =>
      if w ≤ srcW ∧ h ≤ srcH then .ok (srcW, srcH)
      else
        let r : ℚ := max ((w : ℚ) / (srcW : ℚ)) ((h : ℚ) / (srcH : ℚ))
        .ok ((round ((srcW : ℚ) * r)).toNat, (round ((srcH : ℚ) * r)).toNat)
  | some w, none =>
    let r : ℚ := (w : ℚ) / (srcW : ℚ)
    .ok (w, (max (round ((srcH : ℚ) * r)) 1).toNat)
  | none, some h =>
    let r : ℚ := (h : ℚ) / (srcH : ℚ)
    .ok ((max (round ((srcW : ℚ) * r)) 1).toNat, h)
  | none, none =>
    .error (ImageError.invalidDimensions "Either width or height must be specified")

/-- An owned pixel buffer (`DynamicImage` in the source): dimensions, an
alpha flag and the raw bytes. -/
structure Raster where
  width : ℕ
  height : ℕ
  hasAlpha : Bool
  pixels : List ℕ
deriving DecidableEq, Repr

/-- `resize_image` from `src/rust/src/resize.rs` (lines 117-157).  The part
of the function that runs only when the computed target differs from the
source — scale-factor computation, adaptive algorithm selection, multi-step
halving and the external `fast_image_resize` convolutions (lines 135-156) —
is abstracted as the `resample` argument: every theorem below quantifies over
it, so nothing is assumed about it. -/
def resize_image (resample : Raster → ℕ × ℕ → Except ImageError Raster)
    (img : Raster) (opts : ResizeOptions) : Except ImageError Raster :=
  match calculate_dimensions img.width img.height opts.width opts.height opts.fit with
  | .error e => .error e
  | .ok wh =>
    -- OPTIMIZATION: skip resize if image already at target dimensions
    if img.width = wh.1 ∧ img.height = wh.2 then .ok img
    else resample img wh

/-! ## JPEG shrink-on-load (`src/rust/src/decode/jpeg.rs`) -/

/-- `f64` division of nonnegative quantities where the divisor may be zero:
`none` stands for IEEE `+∞` (all numerators on this path are positive under
the theorems' hypotheses). -/
def fdiv (a b : ℚ) : Option ℚ := if b = 0 then none else some (a / b)

/-- `f64::min` on the values produced by `fdiv` (`min(∞, q) = q`). -/
def fmin : Option ℚ → Option ℚ → Option ℚ
  | none, y => y
  | some a, none => some a
  | some a, some b => some (min a b)

/-- `shrink >= c` where `shrink` may be `+∞`. -/
def fge (x : Option ℚ) (c : ℚ) : Bool :=
  match x with
  | none => true
  | some q => decide (c ≤ q)

/-- The shrink-ratio quantization at the heart of
`calculate_jpeg_scale_factor` (`src/rust/src/decode/jpeg.rs` lines 92-113):
`shrink = min(src_w/tw, src_h/th)`, then `≥8 → 1/8`, `≥4 → 1/4`, `≥2 → 1/2`,
otherwise full resolution. -/
def jpeg_quantize (srcW srcH tw th : ℕ) : ℕ × ℕ :=
  let shrink := fmin (fdiv (srcW : ℚ) (tw : ℚ)) (fdiv (srcH : ℚ) (th : ℚ))
  if fge shrink 8 then (1, 8)
  else if fge shrink 4 then (1, 4)
  else if fge shrink 2 then (1, 2)
  else (1, 1)

/-- `calculate_jpeg_scale_factor` from `src/rust/src/decode/jpeg.rs`
(lines 72-113).  A missing target dimension is substituted proportionally
(`(src_height as f64 * ratio) as u32` truncates, hence `Int.toNat ∘ Int.floor`);
missing both targets short-circuits to full resolution `(1, 1)`. -/
def calculate_jpeg_scale_factor (srcW srcH : ℕ) (tw th : Option ℕ) : ℕ × ℕ :=
  match tw, th with
  | some w, some h => jpeg_quantize srcW srcH w h
  | some w, none =>
    jpeg_quantize srcW srcH w (Int.toNat ⌊(srcH : ℚ) * ((w : ℚ) / (srcW : ℚ))⌋)
  | none, some h =>
    jpeg_quantize srcW srcH (Int.toNat ⌊(srcW : ℚ) * ((h : ℚ) / (srcH : ℚ))⌋) h
  | none, none => (1, 1)

/-- The scaled dimension computed by turbojpeg for a scaling factor
`num/den` (the `TJSCALED` macro used by `scaling.scale(header.width)` in
`decode_jpeg_with_shrink`): `⌈dim · num / den⌉` as integer arithmetic. -/
def tjscaled (dim num den : ℕ) : ℕ := (dim * num + den - 1) / den

/-! ## Decode dispatch and the WebP / generic decoders
(`src/rust/src/decode/mod.rs`, `decode/webp.rs`, `decode/generic.rs`) -/

/-- Container formats as detected by `detect_format` (`image::guess_format`). -/
inductive DetectedFormat where
  | jpeg | png | webp | gif | bmp | ico | tiff | avif | otherFmt
deriving DecidableEq, Repr

/-- The decode paths reachable from `decode_image_with_target`
(`src/rust/src/decode/mod.rs` lines 32-55).  The module declares only
`generic`, `heic` and `jpeg` submodules; there is no WebP-specific path in
the dispatcher. -/
inductive DecodePath where
  | heicShrink | jpegShrink | jpegFull | genericFull
deriving DecidableEq, Repr

/-- The routing logic of `decode_image_with_target`
(`src/rust/src/decode/mod.rs` lines 32-55): HEIC is checked first, JPEG
gets the shrink path when a target is present, and every other format —
including WebP — falls to the generic full-resolution decoder. -/
def decode_route (isHeicData : Bool) (fmt : DetectedFormat)
    (hasTargetW hasTargetH : Bool) : DecodePath :=
  if isHeicData then .heicShrink
  else
    match fmt with
    | .jpeg => if hasTargetW || hasTargetH then .jpegShrink else .jpegFull
    | _ => .genericFull

/-- `MAX_PIXELS_DEFAULT` from `decode/generic.rs` and `decode/webp.rs`:
100 megapixels. -/
def MAX_PIXELS_DEFAULT : ℕ := 100000000

/-- `calculate_scaled_dimensions` from `src/rust/src/decode/webp.rs`
(lines 155-177): complete a missing target dimension proportionally
(`f64::round`, then `.max(1)`). -/
def calculate_scaled_dimensions (srcW srcH : ℕ) (tw th : Option ℕ) : ℕ × ℕ :=
  match tw, th with
  | some w, some h => (w, h)
  | some w, none => (w, max (round ((srcH : ℚ) * ((w : ℚ) / (srcW : ℚ)))).toNat 1)
  | none, some h => (max (round ((srcW : ℚ) * ((h : ℚ) / (srcH : ℚ)))).toNat 1, h)
  | none, none => (srcW, srcH)

/-- The dimension logic of `decode_webp_with_target` from
`src/rust/src/decode/webp.rs` (lines 22-152), embedded as the map from
source dimensions and target request to the resolution the libwebp decode is
configured with.  `srcW, srcH` are the dimensions reported by
`WebPGetFeatures`.  The pixel-ceiling check precedes the scaling decision,
so `src_width * 2 / 3` (u32 arithmetic) cannot overflow. -/
def decode_webp_with_target (srcW srcH : ℕ) (tw th : Option ℕ) :
    Except ImageError (ℕ × ℕ) :=
  if MAX_PIXELS_DEFAULT < srcW * srcH then
    .error (ImageError.decodeError
      ("WebP image too large: " ++ toString srcW ++ "x" ++ toString srcH
        ++ " (" ++ toString (srcW * srcH / 1000000)
        ++ " megapixels) exceeds limit of 100 megapixels"))
  else
    let fd := calculate_scaled_dimensions srcW srcH tw th
    -- only scale if target is significantly smaller (at least 1.5x)
    let shouldScale : Bool := decide (fd.1 < srcW * 2 / 3) || decide (fd.2 < srcH * 2 / 3)
    .ok (if shouldScale then fd else (srcW, srcH))

/-- The error message built by `decode_with_image_crate_safe` when the
claimed pixel count exceeds the ceiling. -/
def too_large_msg (w h : ℕ) : String :=
  "Image too large: " ++ toString w ++ "x" ++ toString h ++ " ("
    ++ toString (w * h / 1000000) ++ " megapixels) exceeds limit of "
    ++ toString (MAX_PIXELS_DEFAULT / 1000000) ++ " megapixels"

/-- `decode_with_image_crate_safe` from `src/rust/src/decode/generic.rs`
(lines 16-48).  `dims` stands for `reader.into_dimensions()` (the header-only
dimension read) and `decodePixels` for the subsequent full `reader.decode()`
together with its buffer allocation; the theorems quantify over
`decodePixels`, capturing that the ceiling check runs before any pixel
memory is touched. -/
def decode_with_image_crate_safe (dims : Except ImageError (ℕ × ℕ))
    (decodePixels : Except ImageError Raster) : Except ImageError Raster :=
  match dims with
  | .error e => .error e
  | .ok wh =>
    if MAX_PIXELS_DEFAULT < wh.1 * wh.2 then
      .error (ImageError.decodeError (too_large_msg wh.1 wh.2))
    else decodePixels

/-! ## Encoders (`src/rust/src/encode.rs`) -/

/-- JPEG encode options (`struct JpegOptions`). -/
structure JpegOptions where
  quality : Option ℕ
deriving DecidableEq, Repr

/-- PNG encode options (`struct PngOptions`). -/
structure PngOptions where
  compression : Option ℕ
deriving DecidableEq, Repr

/-- WebP encode options (`struct WebPOptions`). -/
structure WebPOptions where
  quality : Option ℕ
  lossless : Option Bool
deriving DecidableEq, Repr

/-- The effective JPEG quality of `encode_jpeg` (`src/rust/src/encode.rs`
lines 12-14): `options.and_then(|o| o.quality).unwrap_or(80)` then
`clamp(1, 100)`. -/
def jpeg_effective_quality (opts : Option JpegOptions) : ℕ :=
  let q := (opts.bind JpegOptions.quality).getD 80
  max 1 (min q 100)

/-- `image::codecs::png::CompressionType` as selected by `encode_png`. -/
inductive PngCompressionType where
  | fast | defaultLevel | best
deriving DecidableEq, Repr

/-- `image::codecs::png::FilterType` as selected by `encode_png`. -/
inductive PngFilterType where
  | sub | adaptive
deriving DecidableEq, Repr

/-- The effective PNG compression level of `encode_png`
(`src/rust/src/encode.rs` line 38): default 6. -/
def png_effective_compression (opts : Option PngOptions) : ℕ :=
  (opts.bind PngOptions.compression).getD 6

/-- The compression-level-to-strategy match of `encode_png`
(`src/rust/src/encode.rs` lines 41-46): `0 | 1..=3 → Fast`, `4..=6 → Default`,
everything else (the `u8` values 7-255) `→ Best`. -/
def png_compression_type (c : ℕ) : PngCompressionType :=
  if c = 0 then .fast
  else if 1 ≤ c ∧ c ≤ 3 then .fast
  else if 4 ≤ c ∧ c ≤ 6 then .defaultLevel
  else .best

/-- The filter heuristic of `encode_png` (`src/rust/src/encode.rs`
lines 50-54): `Sub` below level 4, `Adaptive` from level 4 up. -/
def png_filter_type (c : ℕ) : PngFilterType :=
  if c < 4 then .sub else .adaptive

/-- The effective WebP quality of `encode_webp` (`src/rust/src/encode.rs`
line 88): default 80 (the `as f32` cast is exact on `u8` values). -/
def webp_effective_quality (opts : Option WebPOptions) : ℕ :=
  (opts.bind WebPOptions.quality).getD 80

/-- The effective WebP lossless flag of `encode_webp`
(`src/rust/src/encode.rs` line 89): default `false`. -/
def webp_effective_lossless (opts : Option WebPOptions) : Bool :=
  (opts.bind WebPOptions.lossless).getD false

/-! ## JPEG header metadata extraction (`src/rust/src/metadata/jpeg.rs`,
`src/rust/src/metadata/utils.rs`)

Byte buffers are lists of `ℕ` (each element a byte value `< 256`; every read
in the source is guarded in-bounds, so out-of-range reads — modelled as `0` —
never occur on the executed paths). -/

/-- Indexed byte read, `data[i]`. -/
def bget (d : List ℕ) (i : ℕ) : ℕ := d.getD i 0

/-- `u16::from_be_bytes([a, b])`. -/
def u16be (a b : ℕ) : ℕ := a * 256 + b

/-- `u16::from_le_bytes([a, b])`. -/
def u16le (a b : ℕ) : ℕ := b * 256 + a

/-- `u32::from_be_bytes([a, b, c, d])`. -/
def u32be (a b c d : ℕ) : ℕ := ((a * 256 + b) * 256 + c) * 256 + d

/-- `u32::from_le_bytes([a, b, c, d])`. -/
def u32le (a b c d : ℕ) : ℕ := ((d * 256 + c) * 256 + b) * 256 + a

/-- Rust slice `&data[a..b]`. -/
def byteSlice (d : List ℕ) (a b : ℕ) : List ℕ := (d.take b).drop a

/-- The bounds-checked 16-bit read closure `read_u16` of
`parse_exif_orientation` (`src/rust/src/metadata/utils.rs` lines 82-91). -/
def read_u16_at (bigE : Bool) (d : List ℕ) (off : ℕ) : Option ℕ :=
  if d.length < off + 2 then none
  else some (if bigE then u16be (bget d off) (bget d (off + 1))
             else u16le (bget d off) (bget d (off + 1)))

/-- The entry loop of `parse_exif_orientation`
(`src/rust/src/metadata/utils.rs` lines 105-116): iterate IFD entries `i`
(the second argument counts the remaining `min(num_entries, 20)` iterations)
looking for the Orientation tag `0x0112`; the `as u8` cast of its SHORT
value wraps, hence `% 256`. -/
def exif_entry_loop (bigE : Bool) (d : List ℕ) (ifdOff : ℕ) : ℕ → ℕ → Option ℕ
  | _, 0 => none
  | i, rem + 1 =>
    let entryOff := ifdOff + 2 + i * 12
    if d.length < entryOff + 12 then none
    else
      match read_u16_at bigE d entryOff with
      | none => none
      | some tag =>
        if tag = 0x0112 then
          match read_u16_at bigE d (entryOff + 8) with
          | none => none
          | some v => some (v % 256)
        else exif_entry_loop bigE d ifdOff (i + 1) rem

/-- `parse_exif_orientation` from `src/rust/src/metadata/utils.rs`
(lines 75-119). -/
def parse_exif_orientation (d : List ℕ) : Option ℕ :=
  if d.length < 8 then none
  else
    let bigE : Bool := decide (byteSlice d 0 2 = [0x4D, 0x4D])  -- b"MM"
    let ifdOff :=
      if bigE then u32be (bget d 4) (bget d 5) (bget d 6) (bget d 7)
      else u32le (bget d 4) (bget d 5) (bget d 6) (bget d 7)
    if d.length ≤ ifdOff then none
    else
      match read_u16_at bigE d ifdOff with
      | none => none
      | some numEntries => exif_entry_loop bigE d ifdOff 0 (min numEntries 20)

/-- The mutable locals of `get_jpeg_metadata_fast` carried through the
marker scan. -/
structure JpegScanState where
  width : ℕ
  height : ℕ
  channels : ℕ
  isProgressive : Bool
  hasProfile : Bool
  orientation : Option ℕ
  density : Option ℕ
deriving DecidableEq, Repr

/-- Initial scan state (`src/rust/src/metadata/jpeg.rs` lines 11-17). -/
def initJpegScanState : JpegScanState :=
  { width := 0, height := 0, channels := 3, isProgressive := false,
    hasProfile := false, orientation := none, density := none }

/-- One marker-body update of the scan (`src/rust/src/metadata/jpeg.rs`
lines 49-100, all cases except the `0xDA` break).  The JFIF
dots-per-cm conversion `(x_density as f64 * 2.54) as u32` truncates; on
`u16` inputs the `f64` computation agrees exactly with `x * 254 / 100` in
integer arithmetic. -/
def jpeg_marker_update (d : List ℕ) (pos length marker : ℕ)
    (st : JpegScanState) : JpegScanState :=
  if marker = 0xC0 then
    -- SOF0, baseline DCT
    if pos + 9 < d.length then
      { st with height := u16be (bget d (pos + 5)) (bget d (pos + 6)),
                width := u16be (bget d (pos + 7)) (bget d (pos + 8)),
                channels := bget d (pos + 9) }
    else st
  else if marker = 0xC2 then
    -- SOF2, progressive DCT
    let st1 := { st with isProgressive := true }
    if pos + 9 < d.length then
      { st1 with height := u16be (bget d (pos + 5)) (bget d (pos + 6)),
                 width := u16be (bget d (pos + 7)) (bget d (pos + 8)),
                 channels := bget d (pos + 9) }
    else st1
  else if marker = 0xE0 then
    -- APP0, JFIF density
    if 12 < length ∧ pos + 14 < d.length then
      if byteSlice d (pos + 4) (pos + 9) = [0x4A, 0x46, 0x49, 0x46, 0x00] then
        let densityUnit := bget d (pos + 11)
        let xd := u16be (bget d (pos + 12)) (bget d (pos + 13))
        let dval := if densityUnit = 1 then xd
                    else if densityUnit = 2 then xd * 254 / 100 else xd
        { st with density := some dval }
      else st
    else st
  else if marker = 0xE1 then
    -- APP1, EXIF
    if 8 < length ∧ pos + 10 < d.length then
      if byteSlice d (pos + 4) (pos + 8) = [0x45, 0x78, 0x69, 0x66] then
        let exifSeg := byteSlice d (pos + 10) (min d.length (pos + length + 2))
        { st with orientation := parse_exif_orientation exifSeg }
      else st
    else st
  else if marker = 0xE2 then
    -- APP2, ICC profile
    if 14 < length ∧ pos + 16 < d.length then
      if byteSlice d (pos + 4) (pos + 16) =
          [0x49, 0x43, 0x43, 0x5F, 0x50, 0x52, 0x4F, 0x46, 0x49, 0x4C, 0x45, 0x00] then
        { st with hasProfile := true }
      else st
    else st
  else st

/-- The marker-scan loop of `get_jpeg_metadata_fast`
(`src/rust/src/metadata/jpeg.rs` lines 23-103).  The first argument after
`scanLimit` is fuel: every iteration strictly increases `pos`, and the loop
runs only while `pos + 4 < scanLimit`, so starting with `fuel = scanLimit`
the fuel can never be exhausted before the `while` guard fails — the `0`
case is unreachable and only discharges termination. -/
def jpeg_scan (d : List ℕ) (scanLimit : ℕ) : ℕ → ℕ → JpegScanState → JpegScanState
  | 0, _, st => st
  | fuel + 1, pos, st =>
    if scanLimit ≤ pos + 4 then st
    else if bget d pos ≠ 0xFF then jpeg_scan d scanLimit fuel (pos + 1) st
    else
      let marker := bget d (pos + 1)
      -- skip padding bytes
      if marker = 0xFF then jpeg_scan d scanLimit fuel (pos + 1) st
      -- markers without length
      else if marker = 0 ∨ marker = 1 ∨ (0xD0 ≤ marker ∧ marker ≤ 0xD9) then
        jpeg_scan d scanLimit fuel (pos + 2) st
      -- `if pos + 4 > scan_limit { break }` (dead under the while guard, kept)
      else if scanLimit < pos + 4 then st
      else
        let length := u16be (bget d (pos + 2)) (bget d (pos + 3))
        -- SOS: start of scan, all headers seen
        if marker = 0xDA then st
        else
          jpeg_scan d scanLimit fuel (pos + 2 + length)
            (jpeg_marker_update d pos length marker st)

/-- Read-only metadata summary, from `src/rust/src/types.rs`
(`struct ImageMetadata`); the `format` field is named `fmt` here. -/
structure ImageMetadata where
  width : ℕ
  height : ℕ
  fmt : String
  size : Option ℕ
  space : String
  channels : ℕ
  depth : String
  hasAlpha : Bool
  bitsPerSample : ℕ
  isProgressive : Bool
  isPalette : Bool
  hasProfile : Bool
  orientation : Option ℕ
  pages : Option ℕ
  loopCount : Option ℕ
  delay : Option (List ℕ)
  background : Option (List ℕ)
  compression : Option String
  density : Option ℕ
deriving DecidableEq, Repr

/-- `get_jpeg_metadata_fast` from `src/rust/src/metadata/jpeg.rs`
(lines 10-142): scan at most the first 64KB of markers starting after the
SOI marker, then fail with `DecodeError` if no dimensions were found. -/
def get_jpeg_metadata_fast (d : List ℕ) (size : ℕ) : Except ImageError ImageMetadata :=
  let scanLimit := min d.length 65536
  let st := jpeg_scan d scanLimit scanLimit 2 initJpegScanState
  if st.width = 0 ∨ st.height = 0 then
    .error (ImageError.decodeError "Invalid JPEG: no dimensions found")
  else
    .ok { width := st.width, height := st.height, fmt := "jpeg", size := some size,
          space := if st.channels = 1 then "grayscale" else "srgb",
          channels := st.channels, depth := "uchar", hasAlpha := false,
          bitsPerSample := 8, isProgressive := st.isProgressive, isPalette := false,
          hasProfile := st.hasProfile, orientation := st.orientation,
          pages := none, loopCount := none, delay := none, background := none,
          compression := some (if st.isProgressive then "progressive" else "baseline"),
          density := st.density }

/-! ## Theorems -/

/-- C4: for every source size `(sw, sh)`, crop size `(cw, ch)` and each of the
nine gravity values, the computed crop offset equals the documented formula
with saturating subtraction, and whenever the crop fits inside the source the
offset satisfies `x ≤ sw - cw` and `y ≤ sh - ch` (offsets are `ℕ`, so `0 ≤ x`
and `0 ≤ y` hold by type). -/
theorem gravity_offset_formula_and_bounds :
    ∀ sw sh cw ch g,
      calculate_gravity_crop sw sh cw ch g = gravity_offset_documented sw sh cw ch g ∧
      (cw ≤ sw → ch ≤ sh →
        (calculate_gravity_crop sw sh cw ch g).1 ≤ sw - cw ∧
        (calculate_gravity_crop sw sh cw ch g).2 ≤ sh - ch) := by
  intro sw sh cw ch g
  cases g <;>
    refine ⟨rfl, fun h1 h2 => ?_⟩ <;>
    simp only [calculate_gravity_crop] <;>
    constructor <;> omega

/-- Witness for `gravity_offset_formula_and_bounds`: the spec's own example,
gravity `Center` on a 1000×1000 source with a 500×500 crop. -/
theorem gravity_offset_formula_and_bounds_witness :
    calculate_gravity_crop 1000 1000 500 500 CropGravity.center =
      gravity_offset_documented 1000 1000 500 500 CropGravity.center ∧
    (calculate_gravity_crop 1000 1000 500 500 CropGravity.center).1 ≤ 1000 - 500 ∧
    (calculate_gravity_crop 1000 1000 500 500 CropGravity.center).2 ≤ 1000 - 500 := by
  have h := gravity_offset_formula_and_bounds 1000 1000 500 500 CropGravity.center
  exact ⟨h.1, h.2 (by decide) (by decide)⟩

/-- C5 counterexample: the claim's unclamped formula says a 1000×1 source
cropped to aspect ratio "1:3" gets width `round(src_height · target_ratio)
= round(1 · 1/3) = 0` with height unchanged, i.e. `(0, 1)`; the code clamps
the constrained axis with `.min(src).max(1)` and returns `(1, 1)`. -/
theorem aspect_crop_round_counterexample :
    calculate_aspect_ratio_crop 1000 1 1 3 = (1, 1) ∧
    (1 : ℚ) / 3 < (1000 : ℚ) / 1 ∧
    (round ((1 : ℚ) * ((1 : ℚ) / 3))).toNat = 0 := by
  refine ⟨?_, by norm_num, by norm_num [round_eq]⟩
  simp only [calculate_aspect_ratio_crop]
  norm_num [round_eq]

/-- C5 (amended): the aspect-ratio crop constrains one axis to the rounded
formula value additionally clamped into `[1, source]` and leaves the other
axis unchanged — so the result is always at least 1×1 and within source
bounds — and the spec's two 1:1 examples hold exactly. -/
theorem aspect_crop_clamped_formula :
    (∀ sw sh aw ah, 1 ≤ sw → 1 ≤ sh →
      (1 ≤ (calculate_aspect_ratio_crop sw sh aw ah).1 ∧
       1 ≤ (calculate_aspect_ratio_crop sw sh aw ah).2 ∧
       (calculate_aspect_ratio_crop sw sh aw ah).1 ≤ sw ∧
       (calculate_aspect_ratio_crop sw sh aw ah).2 ≤ sh) ∧
      ((aw : ℚ) / (ah : ℚ) < (sw : ℚ) / (sh : ℚ) →
        calculate_aspect_ratio_crop sw sh aw ah =
          (max (min (round ((sh : ℚ) * ((aw : ℚ) / (ah : ℚ)))).toNat sw) 1, sh)) ∧
      (¬ (aw : ℚ) / (ah : ℚ) < (sw : ℚ) / (sh : ℚ) →
        calculate_aspect_ratio_crop sw sh aw ah =
          (sw, max (min (round ((sw : ℚ) / ((aw : ℚ) / (ah : ℚ)))).toNat sh) 1))) ∧
    calculate_aspect_ratio_crop 1920 1080 1 1 = (1080, 1080) ∧
    calculate_aspect_ratio_crop 1080 1920 1 1 = (1080, 1080) := by
  refine ⟨?_, ?_, ?_⟩
  · intro sw sh aw ah h1 h2
    by_cases hlt : (aw : ℚ) / (ah : ℚ) < (sw : ℚ) / (sh : ℚ)
    · have hres : calculate_aspect_ratio_crop sw sh aw ah =
          (max (min (round ((sh : ℚ) * ((aw : ℚ) / (ah : ℚ)))).toNat sw) 1, sh) := by
        simp only [calculate_aspect_ratio_crop, if_pos hlt]
      refine ⟨?_, fun _ => hres, fun hc => absurd hlt hc⟩
      rw [hres]
      exact ⟨le_max_right _ _, h2, max_le (min_le_right _ _) h1, le_refl _⟩
    · have hres : calculate_aspect_ratio_crop sw sh aw ah =
          (sw, max (min (round ((sw : ℚ) / ((aw : ℚ) / (ah : ℚ)))).toNat sh) 1) := by
        simp only [calculate_aspect_ratio_crop, if_neg hlt]
      refine ⟨?_, fun hc => absurd hc hlt, fun _ => hres⟩
      rw [hres]
      exact ⟨h1, le_max_right _ _, le_refl _, max_le (min_le_right _ _) h2⟩
  · simp only [calculate_aspect_ratio_crop]
    norm_num [round_eq]; decide
  · simp only [calculate_aspect_ratio_crop]
    norm_num [round_eq]; decide

/-- Witness for `aspect_crop_clamped_formula`: the 1920×1080, "1:1" case. -/
theorem aspect_crop_clamped_formula_witness :
    (1 ≤ (calculate_aspect_ratio_crop 1920 1080 1 1).1 ∧
     1 ≤ (calculate_aspect_ratio_crop 1920 1080 1 1).2 ∧
     (calculate_aspect_ratio_crop 1920 1080 1 1).1 ≤ 1920 ∧
     (calculate_aspect_ratio_crop 1920 1080 1 1).2 ≤ 1080) := by
  exact ((aspect_crop_clamped_formula.1 1920 1080 1 1 (by decide) (by decide)).1)

/-- C3 counterexample: a resize request with both supplied dimensions `0` in
`Fill` mode succeeds with the computed size `(0, 0)` — no error is raised and
the result is not at least 1 in either axis. -/
theorem resize_dims_zero_counterexample :
    calculate_dimensions 100 100 (some 0) (some 0) (some FitMode.fill) =
      Except.ok (0, 0) := rfl

/-- C3 (amended): `calculate_dimensions` never rejects a zero target — with
at least one target supplied it always succeeds, for every fit mode
(`Fill`, `Cover`, `Contain`, `Inside`, `Outside` and the absent-mode
default); the only error is the both-targets-missing case.  `Fill` returns
the supplied pair verbatim (zeros included); `Cover`/`Contain` clamp the
result to at least 1 in both axes (`Inside`/`Outside` apply no such clamp);
with a single supplied dimension the supplied value passes through verbatim
(even 0) and only the derived one is clamped to at least 1. -/
theorem resize_dims_zero_handling :
    (∀ sw sh w h fitO, ∃ p,
      calculate_dimensions sw sh (some w) (some h) fitO = Except.ok p) ∧
    (∀ sw sh w h, calculate_dimensions sw sh (some w) (some h) (some FitMode.fill) =
        Except.ok (w, h)) ∧
    (∀ sw sh w h fit, fit = FitMode.cover ∨ fit = FitMode.contain →
      ∃ p, calculate_dimensions sw sh (some w) (some h) (some fit) = Except.ok p ∧
        1 ≤ p.1 ∧ 1 ≤ p.2) ∧
    (∀ sw sh w fit, ∃ p, calculate_dimensions sw sh (some w) none fit = Except.ok p ∧
        p.1 = w ∧ 1 ≤ p.2) ∧
    (∀ sw sh h fit, ∃ p, calculate_dimensions sw sh none (some h) fit = Except.ok p ∧
        1 ≤ p.1 ∧ p.2 = h) ∧
    (∀ sw sh fit, calculate_dimensions sw sh none none fit =
        Except.error (ImageError.invalidDimensions
          "Either width or height must be specified")) := by
  refine ⟨?_, fun sw sh w h => rfl, ?_, ?_, ?_, fun sw sh fit => rfl⟩
  · intro sw sh w h fitO
    rcases fitO with _ | fit
    · exact ⟨_, rfl⟩
    · cases fit
      case fill => exact ⟨_, rfl⟩
      case cover => exact ⟨_, rfl⟩
      case contain => exact ⟨_, rfl⟩
      case inside =>
        simp only [calculate_dimensions, Option.getD]
        split_ifs <;> exact ⟨_, rfl⟩
      case outside =>
        simp only [calculate_dimensions, Option.getD]
        split_ifs <;> exact ⟨_, rfl⟩
  · intro sw sh w h fit hfit
    rcases hfit with h' | h' <;> subst h' <;>
      simp only [calculate_dimensions] <;>
      exact ⟨_, rfl, le_max_right _ _, le_max_right _ _⟩
  · intro sw sh w fit
    refine ⟨_, rfl, rfl, ?_⟩
    have h1 : (1 : ℤ) ≤ max (round ((sh : ℚ) * ((w : ℚ) / (sw : ℚ)))) 1 := le_max_right _ _
    omega
  · intro sw sh h fit
    refine ⟨_, rfl, ?_, rfl⟩
    have h1 : (1 : ℤ) ≤ max (round ((sw : ℚ) * ((h : ℚ) / (sh : ℚ)))) 1 := le_max_right _ _
    omega

/-- Witness for `resize_dims_zero_handling`: the Inside arm succeeds on a
zero-dimension request, and the Cover arm's clamp at a concrete request. -/
theorem resize_dims_zero_handling_witness :
    (∃ p, calculate_dimensions 100 100 (some 0) (some 0) (some FitMode.inside) =
      Except.ok p) ∧
    ∃ p, calculate_dimensions 400 300 (some 0) (some 0) (some FitMode.cover) =
      Except.ok p ∧ 1 ≤ p.1 ∧ 1 ≤ p.2 :=
  ⟨resize_dims_zero_handling.1 100 100 0 0 (some FitMode.inside),
   resize_dims_zero_handling.2.2.1 400 300 0 0 FitMode.cover (Or.inl rfl)⟩

/-- C6: when the computed target dimensions equal the source dimensions the
resize returns the input raster itself (`Ok(img)` with no resampling pass),
for every possible resampling backend. -/
theorem resize_skip_identity :
    ∀ (resample : Raster → ℕ × ℕ → Except ImageError Raster) (img : Raster)
      (opts : ResizeOptions),
      calculate_dimensions img.width img.height opts.width opts.height opts.fit =
        Except.ok (img.width, img.height) →
      resize_image resample img opts = Except.ok img := by
  intro resample img opts h
  simp [resize_image, h]

/-- Witness for `resize_skip_identity`: a 100×50 raster resized to 100×50
is returned unchanged even when the resampler would fail. -/
theorem resize_skip_identity_witness :
    resize_image (fun _ _ => Except.error (ImageError.processingError "resample"))
      ⟨100, 50, false, []⟩ ⟨some 100, some 50, none, none, none⟩ =
      Except.ok ⟨100, 50, false, []⟩ := by
  refine resize_skip_identity _ _ _ ?_
  simp only [calculate_dimensions]
  norm_num [round_eq]; decide

/-- C7: whenever the header-reported dimensions multiply beyond the
100,000,000-pixel ceiling, the generic decoder fails with a `DecodeError` —
whatever the subsequent pixel decode (and its allocation) would have
produced, since it is never consulted. -/
theorem generic_decode_pixel_ceiling :
    ∀ w h decodePixels, MAX_PIXELS_DEFAULT < w * h →
      decode_with_image_crate_safe (Except.ok (w, h)) decodePixels =
        Except.error (ImageError.decodeError (too_large_msg w h)) := by
  intro w h dp hwh
  simp [decode_with_image_crate_safe, hwh]

/-- Witness for `generic_decode_pixel_ceiling`: a file claiming
20000×20000 = 400 megapixels is rejected. -/
theorem generic_decode_pixel_ceiling_witness :
    MAX_PIXELS_DEFAULT < 20000 * 20000 ∧
    decode_with_image_crate_safe (Except.ok (20000, 20000))
        (Except.ok ⟨1, 1, false, [0]⟩) =
      Except.error (ImageError.decodeError (too_large_msg 20000 20000)) := by
  have hp : MAX_PIXELS_DEFAULT < 20000 * 20000 := by norm_num [MAX_PIXELS_DEFAULT]
  exact ⟨hp, generic_decode_pixel_ceiling 20000 20000 _ hp⟩

/-- C10: the encoders' defaults — JPEG quality 80, WebP quality 80 with
lossless `false`, PNG compression 6 (hence the `Default` strategy with the
`Adaptive` filter) — and every PNG compression value above 9 selects the
`Best` strategy rather than erroring. -/
theorem encode_option_defaults :
    jpeg_effective_quality none = 80 ∧
    jpeg_effective_quality (some ⟨none⟩) = 80 ∧
    webp_effective_quality none = 80 ∧
    webp_effective_quality (some ⟨none, none⟩) = 80 ∧
    webp_effective_lossless none = false ∧
    webp_effective_lossless (some ⟨none, none⟩) = false ∧
    png_effective_compression none = 6 ∧
    png_effective_compression (some ⟨none⟩) = 6 ∧
    png_compression_type 6 = PngCompressionType.defaultLevel ∧
    png_filter_type 6 = PngFilterType.adaptive ∧
    (∀ c, 9 < c → png_compression_type c = PngCompressionType.best) := by
  refine ⟨rfl, rfl, rfl, rfl, rfl, rfl, rfl, rfl, rfl, rfl, ?_⟩
  intro c hc
  unfold png_compression_type
  rw [if_neg (by omega), if_neg (by omega), if_neg (by omega)]

/-- Witness for `encode_option_defaults`: PNG compression level 10 maps to
`Best`. -/
theorem encode_option_defaults_witness :
    png_compression_type 10 = PngCompressionType.best :=
  encode_option_defaults.2.2.2.2.2.2.2.2.2.2 10 (by decide)

/-- If the (possibly infinite) shrink ratio reaches `c`, then each nonzero
target axis fits at least `c` times into its source axis. -/
theorem fge_min_le (sw sh tw th c : ℕ)
    (h : fge (fmin (fdiv (sw : ℚ) (tw : ℚ)) (fdiv (sh : ℚ) (th : ℚ))) (c : ℚ) = true) :
    (tw = 0 ∨ c * tw ≤ sw) ∧ (th = 0 ∨ c * th ≤ sh) := by
  rcases Nat.eq_zero_or_pos tw with htw | htw <;>
    rcases Nat.eq_zero_or_pos th with hth | hth
  · exact ⟨Or.inl htw, Or.inl hth⟩
  · subst htw
    refine ⟨Or.inl rfl, Or.inr ?_⟩
    have hthQ : ((th : ℚ)) ≠ 0 := Nat.cast_ne_zero.mpr hth.ne'
    simp [fdiv, fmin, fge, hthQ] at h
    have := (le_div_iff₀ (by positivity : (0 : ℚ) < (th : ℚ))).mp h
    exact_mod_cast this
  · subst hth
    refine ⟨Or.inr ?_, Or.inl rfl⟩
    have htwQ : ((tw : ℚ)) ≠ 0 := Nat.cast_ne_zero.mpr htw.ne'
    simp [fdiv, fmin, fge, htwQ] at h
    have := (le_div_iff₀ (by positivity : (0 : ℚ) < (tw : ℚ))).mp h
    exact_mod_cast this
  · have htwQ : ((tw : ℚ)) ≠ 0 := Nat.cast_ne_zero.mpr htw.ne'
    have hthQ : ((th : ℚ)) ≠ 0 := Nat.cast_ne_zero.mpr hth.ne'
    simp [fdiv, fmin, fge, htwQ, hthQ, le_min_iff] at h
    constructor
    · refine Or.inr ?_
      have := (le_div_iff₀ (by positivity : (0 : ℚ) < (tw : ℚ))).mp h.1
      exact_mod_cast this
    · refine Or.inr ?_
      have := (le_div_iff₀ (by positivity : (0 : ℚ) < (th : ℚ))).mp h.2
      exact_mod_cast this

/-- The quantized scale always decodes at least as many pixels per axis as
the (possibly zero) target asks for, provided the target does not exceed the
source. -/
theorem jpeg_quantize_covers (sw sh tw th : ℕ) (htw : tw ≤ sw) (hth : th ≤ sh) :
    tw ≤ tjscaled sw (jpeg_quantize sw sh tw th).1 (jpeg_quantize sw sh tw th).2 ∧
    th ≤ tjscaled sh (jpeg_quantize sw sh tw th).1 (jpeg_quantize sw sh tw th).2 := by
  unfold jpeg_quantize
  set shrink := fmin (fdiv (sw : ℚ) (tw : ℚ)) (fdiv (sh : ℚ) (th : ℚ)) with hs
  by_cases h8 : fge shrink 8 = true
  · obtain ⟨hw, hh⟩ := fge_min_le sw sh tw th 8 (hs ▸ h8)
    simp [h8, tjscaled]
    omega
  · by_cases h4 : fge shrink 4 = true
    · obtain ⟨hw, hh⟩ := fge_min_le sw sh tw th 4 (hs ▸ h4)
      simp [h8, h4, tjscaled]
      omega
    · by_cases h2 : fge shrink 2 = true
      · obtain ⟨hw, hh⟩ := fge_min_le sw sh tw th 2 (hs ▸ h2)
        simp [h8, h4, h2, tjscaled]
        omega
      · simp [h8, h4, h2, tjscaled]
        omega

/-- For positive targets the embedded quantizer agrees with the spec's
formula on the exact rational shrink ratio `min(src_w/tw, src_h/th)`. -/
theorem jpeg_quantize_eq_formula (sw sh tw th : ℕ) (htw : 0 < tw) (hth : 0 < th) :
    jpeg_quantize sw sh tw th =
      (if (8 : ℚ) ≤ min ((sw : ℚ) / tw) ((sh : ℚ) / th) then (1, 8)
       else if (4 : ℚ) ≤ min ((sw : ℚ) / tw) ((sh : ℚ) / th) then (1, 4)
       else if (2 : ℚ) ≤ min ((sw : ℚ) / tw) ((sh : ℚ) / th) then (1, 2)
       else (1, 1)) := by
  have h1 : ((tw : ℚ)) ≠ 0 := Nat.cast_ne_zero.mpr htw.ne'
  have h2 : ((th : ℚ)) ≠ 0 := Nat.cast_ne_zero.mpr hth.ne'
  simp [jpeg_quantize, fdiv, fmin, fge, h1, h2]

/-- C1 counterexample: a 100×100 JPEG with target 200×200 (an upscale
request) selects full resolution `1/1` and decodes 100×100 — fewer pixels
than the 200×200 the claim promises. -/
theorem jpeg_shrink_upscale_counterexample :
    calculate_jpeg_scale_factor 100 100 (some 200) (some 200) = (1, 1) ∧
    tjscaled 100 1 1 = 100 ∧ ¬ (200 ≤ tjscaled 100 1 1) := by
  refine ⟨?_, rfl, by norm_num [tjscaled]⟩
  simp [calculate_jpeg_scale_factor, jpeg_quantize, fdiv, fmin, fge]
  norm_num

/-- C1 (amended): the decode scale is the claimed quantization of
`shrink = min(src_w/target_w, src_h/target_h)` (proved for supplied target
pairs), and the decoded dimensions `⌈src·scale⌉` cover the requested target
as long as the target does not exceed the source in each axis — including
requests with one missing dimension, where the proportionally substituted
value is covered too.  (An upscale request decodes at source resolution,
with fewer pixels than requested: see the counterexample.) -/
theorem jpeg_shrink_scale_covers_requested :
    ∀ sw sh, 1 ≤ sw → 1 ≤ sh →
      (∀ tw th n d, 1 ≤ tw → tw ≤ sw → 1 ≤ th → th ≤ sh →
        calculate_jpeg_scale_factor sw sh (some tw) (some th) = (n, d) →
        (n, d) =
          (if (8 : ℚ) ≤ min ((sw : ℚ) / tw) ((sh : ℚ) / th) then (1, 8)
           else if (4 : ℚ) ≤ min ((sw : ℚ) / tw) ((sh : ℚ) / th) then (1, 4)
           else if (2 : ℚ) ≤ min ((sw : ℚ) / tw) ((sh : ℚ) / th) then (1, 2)
           else (1, 1)) ∧
        tw ≤ tjscaled sw n d ∧ th ≤ tjscaled sh n d) ∧
      (∀ w n d, 1 ≤ w → w ≤ sw →
        calculate_jpeg_scale_factor sw sh (some w) none = (n, d) →
        w ≤ tjscaled sw n d ∧
        Int.toNat ⌊(sh : ℚ) * ((w : ℚ) / (sw : ℚ))⌋ ≤ tjscaled sh n d) ∧
      (∀ h n d, 1 ≤ h → h ≤ sh →
        calculate_jpeg_scale_factor sw sh none (some h) = (n, d) →
        Int.toNat ⌊(sw : ℚ) * ((h : ℚ) / (sh : ℚ))⌋ ≤ tjscaled sw n d ∧
        h ≤ tjscaled sh n d) := by
  intro sw sh hsw hsh
  refine ⟨?_, ?_, ?_⟩
  · intro tw th n d htw1 htw2 hth1 hth2 hcalc
    rw [calculate_jpeg_scale_factor] at hcalc
    refine ⟨hcalc ▸ jpeg_quantize_eq_formula sw sh tw th htw1 hth1, ?_⟩
    have := jpeg_quantize_covers sw sh tw th htw2 hth2
    rw [hcalc] at this
    exact this
  · intro w n d hw1 hw2 hcalc
    rw [calculate_jpeg_scale_factor] at hcalc
    have hsub : Int.toNat ⌊(sh : ℚ) * ((w : ℚ) / (sw : ℚ))⌋ ≤ sh := by
      have hle : (sh : ℚ) * ((w : ℚ) / (sw : ℚ)) ≤ (sh : ℚ) := by
        apply mul_le_of_le_one_right (by positivity)
        rw [div_le_one (by exact_mod_cast hsw)]
        exact_mod_cast hw2
      have hfl : ⌊(sh : ℚ) * ((w : ℚ) / (sw : ℚ))⌋ ≤ (sh : ℤ) := by
        have := Int.floor_le_floor hle
        simpa using this
      omega
    have := jpeg_quantize_covers sw sh w _ hw2 hsub
    rw [hcalc] at this
    exact this
  · intro h n d hh1 hh2 hcalc
    rw [calculate_jpeg_scale_factor] at hcalc
    have hsub : Int.toNat ⌊(sw : ℚ) * ((h : ℚ) / (sh : ℚ))⌋ ≤ sw := by
      have hle : (sw : ℚ) * ((h : ℚ) / (sh : ℚ)) ≤ (sw : ℚ) := by
        apply mul_le_of_le_one_right (by positivity)
        rw [div_le_one (by exact_mod_cast hsh)]
        exact_mod_cast hh2
      have hfl : ⌊(sw : ℚ) * ((h : ℚ) / (sh : ℚ))⌋ ≤ (sw : ℤ) := by
        have := Int.floor_le_floor hle
        simpa using this
      omega
    have := jpeg_quantize_covers sw sh _ h hsub hh2
    rw [hcalc] at this
    exact this

/-- Witness for `jpeg_shrink_scale_covers_requested`: an 800×600 JPEG with a
100×100 target selects 1/4 and decodes 200×150, covering the target. -/
theorem jpeg_shrink_scale_covers_requested_witness :
    100 ≤ tjscaled 800 1 4 ∧ 100 ≤ tjscaled 600 1 4 := by
  have hcalc : calculate_jpeg_scale_factor 800 600 (some 100) (some 100) = (1, 4) := by
    simp [calculate_jpeg_scale_factor, jpeg_quantize, fdiv, fmin, fge]
    norm_num
  exact ((jpeg_shrink_scale_covers_requested 800 600 (by decide) (by decide)).1
    100 100 1 4 (by decide) (by decide) (by decide) (by decide) hcalc).2

/-- C2 counterexample: a WebP input with target dimensions is routed by
`decode_image_with_target` to the generic full-resolution decoder
(`decode/mod.rs` declares no `webp` submodule), even though
`decode_webp_with_target` — were it reachable — would decode a 3000×3000
source with a 100×100 target (well under two-thirds of source) directly at
100×100 via libwebp's native scaling. -/
theorem webp_route_counterexample :
    decode_route false DetectedFormat.webp true true = DecodePath.genericFull ∧
    decode_webp_with_target 3000 3000 (some 100) (some 100) =
      Except.ok (100, 100) := by
  refine ⟨rfl, ?_⟩
  simp [decode_webp_with_target, calculate_scaled_dimensions, MAX_PIXELS_DEFAULT]

/-- C2 (amended): `decode_webp_with_target` implements exactly the claimed
policy — decode at the (proportionally completed) literal target when it is
below two-thirds of the source (integer floor division) in either axis,
otherwise at source resolution — but it is dead code: the dispatcher
`decode_image_with_target` routes every WebP input, with or without target
dimensions, to the generic full-resolution decoder. -/
theorem webp_native_scaling_policy :
    (∀ hw hh, decode_route false DetectedFormat.webp hw hh = DecodePath.genericFull) ∧
    (∀ sw sh tw th, sw * sh ≤ MAX_PIXELS_DEFAULT →
      ((calculate_scaled_dimensions sw sh tw th).1 < sw * 2 / 3 ∨
       (calculate_scaled_dimensions sw sh tw th).2 < sh * 2 / 3 →
        decode_webp_with_target sw sh tw th =
          Except.ok (calculate_scaled_dimensions sw sh tw th)) ∧
      (¬ ((calculate_scaled_dimensions sw sh tw th).1 < sw * 2 / 3 ∨
          (calculate_scaled_dimensions sw sh tw th).2 < sh * 2 / 3) →
        decode_webp_with_target sw sh tw th = Except.ok (sw, sh))) := by
  refine ⟨fun hw hh => rfl, ?_⟩
  intro sw sh tw th hle
  have hnot : ¬ (MAX_PIXELS_DEFAULT < sw * sh) := by omega
  constructor
  · intro hcond
    simp only [decode_webp_with_target, if_neg hnot]
    rcases hcond with h | h <;> simp [h]
  · intro hcond
    push_neg at hcond
    simp only [decode_webp_with_target, if_neg hnot]
    simp [Nat.not_lt.mpr hcond.1, Nat.not_lt.mpr hcond.2]

/-- Witness for `webp_native_scaling_policy`: a 3000×3000 WebP with a
1000×1000 target (below the two-thirds threshold) is configured to decode at
1000×1000. -/
theorem webp_native_scaling_policy_witness :
    decode_webp_with_target 3000 3000 (some 1000) (some 1000) =
      Except.ok (calculate_scaled_dimensions 3000 3000 (some 1000) (some 1000)) := by
  refine (webp_native_scaling_policy.2 3000 3000 (some 1000) (some 1000)
    (by norm_num [MAX_PIXELS_DEFAULT])).1 ?_
  left
  norm_num [calculate_scaled_dimensions]

/-- C8 counterexample bytes: SOI, then a malformed SOF0 segment whose length
field is 0, then the SOS marker at offsets 6-7, then five trailing bytes.
The SOF0 dimension read `data[pos+5..pos+9]` lands beyond the SOS marker. -/
def c8_bytes1 : List ℕ :=
  [0xFF, 0xD8, 0xFF, 0xC0, 0x00, 0x00, 0xFF, 0xDA, 0x01, 0x00, 0x01, 0x03, 0x00]

/-- Same bytes as `c8_bytes1` except at index 10 — a position after the SOS
marker. -/
def c8_bytes2 : List ℕ :=
  [0xFF, 0xD8, 0xFF, 0xC0, 0x00, 0x00, 0xFF, 0xDA, 0x01, 0x00, 0x02, 0x03, 0x00]

/-- C8 counterexample: two JPEG byte sequences of equal length that agree on
every byte up to and including the SOS marker (offsets 6-7; no earlier byte
is `0xDA`) yet produce different metadata (width 1 vs width 2): a malformed
zero-length SOF0 right before the SOS makes the scan read its dimension
bytes from after the SOS marker, so bytes after SOS do affect the result. -/
theorem jpeg_sos_bytes_counterexample :
    c8_bytes1.length = c8_bytes2.length ∧
    byteSlice c8_bytes1 0 8 = byteSlice c8_bytes2 0 8 ∧
    bget c8_bytes1 6 = 0xFF ∧ bget c8_bytes1 7 = 0xDA ∧
    (c8_bytes1.take 6).all (fun b => decide (b ≠ 0xDA)) = true ∧
    (get_jpeg_metadata_fast c8_bytes1 13).toOption.map ImageMetadata.width = some 1 ∧
    (get_jpeg_metadata_fast c8_bytes2 13).toOption.map ImageMetadata.width = some 2 := by
  decide

/-- C8 (amended): the extraction never succeeds with a zero dimension —
whenever the scan ends with zero width or height (in particular when no SOF
marker stored nonzero dimensions) it returns the `DecodeError` — and the
marker scan halts as soon as it stands on an SOS marker; however, bytes
located after the SOS marker can still influence the result through a
malformed zero-length SOF segment occurring shortly before the SOS (see the
counterexample). -/
theorem jpeg_metadata_nonzero_and_sos_stop :
    (∀ d size m, get_jpeg_metadata_fast d size = Except.ok m →
      m.width ≠ 0 ∧ m.height ≠ 0) ∧
    (∀ d lim fuel pos st, bget d pos = 0xFF → bget d (pos + 1) = 0xDA →
      jpeg_scan d lim (fuel + 1) pos st = st) := by
  constructor
  · intro d size m h
    simp only [get_jpeg_metadata_fast] at h
    by_cases hcond :
        (jpeg_scan d (min d.length 65536) (min d.length 65536) 2 initJpegScanState).width = 0 ∨
        (jpeg_scan d (min d.length 65536) (min d.length 65536) 2 initJpegScanState).height = 0
    · rw [if_pos hcond] at h
      exact Except.noConfusion h
    · rw [if_neg hcond] at h
      push_neg at hcond
      injection h with h'
      rw [← h']
      exact ⟨hcond.1, hcond.2⟩
  · intro d lim fuel pos st hff hda
    rw [jpeg_scan]
    by_cases hguard : lim ≤ pos + 4
    · rw [if_pos hguard]
    · rw [if_neg hguard]
      simp [hff, hda, Nat.not_lt.mpr (le_of_not_le hguard)]

/-- Witness for `jpeg_metadata_nonzero_and_sos_stop`: the successful parse of
`c8_bytes1` has nonzero dimensions, and the scan stepping onto the SOS
marker of `c8_bytes1` (offset 6) stops with its state unchanged. -/
theorem jpeg_metadata_nonzero_and_sos_stop_witness :
    ((1 : ℕ) ≠ 0 ∧ (55809 : ℕ) ≠ 0) ∧
    jpeg_scan c8_bytes1 13 3 6 initJpegScanState = initJpegScanState := by
  constructor
  · refine jpeg_metadata_nonzero_and_sos_stop.1 c8_bytes1 13
      { width := 1, height := 55809, fmt := "jpeg", size := some 13,
        space := "srgb", channels := 3, depth := "uchar", hasAlpha := false,
        bitsPerSample := 8, isProgressive := false, isPalette := false,
        hasProfile := false, orientation := none, pages := none,
        loopCount := none, delay := none, background := none,
        compression := some "baseline", density := none } ?_
    decide
  · exact jpeg_metadata_nonzero_and_sos_stop.2 c8_bytes1 13 2 6
      initJpegScanState (by decide) (by decide)

end ImgKit
